import Mathlib

/-! Verification development for the `pommerman-network` orchestration layer.

Shallow embedding of the two source files:
  * `pommerman/helpers/__init__.py` — `make_agent_from_string`, the agent
    resolver mapping descriptor strings `"<kind>::<spec>"` to agent handles;
  * `pommerman/cli/run_battle_comm.py` — the battle loop `_run` (telemetry
    sends to `/envinfo`, `/initial_obs`, `/step`, `/final_info`), and the run
    wrapper `run` (seed resolution, episode loop, process-exit cleanup
    registration).

Python strings are Lean `String`s; Python `str.split(sep)` and tuple
unpacking are embedded below (`pySplit`, `split2`); exceptions become an
error type returned through `Except`; the mutable spec-kwargs dict and the
final-info dict are modelled with explicit state (a store with references
where object identity matters).
-/

namespace Pommerman

/-! Section: Python string primitives

`pySplit` embeds Python `s.split(sep)` for a non-empty separator
`c0 :: sepRest`: leftmost, non-overlapping cuts.  Fuel is the length of the
character list; every step consumes at least one character, so the fuel
guard branch is unreachable.  `split2` embeds the tuple unpacking
`a, b = s.split(sep)`: it succeeds exactly when the split yields two fields
(a `ValueError` otherwise, surfaced by the caller as a malformed
descriptor). -/

def startsWithSep : List Char → List Char → Bool
  | [], _ => true
  | _ :: _, [] => false
  | a :: as, b :: bs => a = b && startsWithSep as bs

def pySplitAux (c0 : Char) (sepRest : List Char) : Nat → List Char → List (List Char)
  | _, [] => [[]]
  | 0, l => [l]
  | fuel + 1, c :: cs =>
    if startsWithSep (c0 :: sepRest) (c :: cs) then
      [] :: pySplitAux c0 sepRest fuel (List.drop sepRest.length cs)
    else
      match pySplitAux c0 sepRest fuel cs with
      | [] => [[c]]
      | g :: gs => (c :: g) :: gs

def pySplit (c0 : Char) (sepRest : List Char) (s : String) : List String :=
  (pySplitAux c0 sepRest s.data.length s.data).map String.mk

def split2 (c0 : Char) (sepRest : List Char) (s : String) : Option (String × String) :=
  match pySplit c0 sepRest s with
  | [a, b] => some (a, b)
  | _ => none

/-- Python `':' in s` (single-character membership suffices for the source). -/
def containsChar (s : String) (c : Char) : Bool :=
  s.data.any (fun d => d = c)

/-! Section: JSON values

Primitive JSON values, enough for the environment spec kwargs.
`jsonDumps` models `json.dumps` on these primitives; for strings it adds
the surrounding quotes and escapes the quote and backslash characters (the
remaining escape classes of the real encoder are not exercised by any
claim). -/

inductive JVal
  | null
  | bool (b : Bool)
  | num (n : Int)
  | str (s : String)
  deriving DecidableEq

def escChar (c : Char) : List Char :=
  if c = '"' then ['\\', '"']
  else if c = '\\' then ['\\', '\\']
  else [c]

def jsonDumps : JVal → String
  | JVal.null => "null"
  | JVal.bool true => "true"
  | JVal.bool false => "false"
  | JVal.num n => toString n
  | JVal.str s => String.mk ('"' :: (List.flatten (s.data.map escChar) ++ ['"']))

/-! Section: Agent resolution (`pommerman/helpers/__init__.py`)

`make_agent_from_string` splits the descriptor at `"::"`, asserts the kind
against the recognized list, and dispatches through the `if`/`elif` chain.
Python exceptions are embedded as `ResolveErr`:
  * `malformedDescriptor` — `ValueError` from tuple unpacking of a split
    that does not yield exactly two fields;
  * `unknownAgentKind` — the `AssertionError` from the kind membership
    assertion;
  * `keyError` — `GAME_SERVERS[agent_id]` lookup outside keys 0..3;
  * `nameError` — `eval` of a symbol the ambient environment cannot
    resolve.
The module globals `USE_GAME_SERVERS` / `GAME_SERVERS` and the constant
`constants.AGENT_BASE_PORT` (whose defining module is outside the given
sources) are parameters, as is the ambient Python evaluation environment
used by the `test` branch (`eval(agent_control)`), modelled as a partial
map from expression strings to resolved class names. -/

def recognizedKinds : List String :=
  ["player", "playerblock", "simple", "static", "random", "docker",
   "docker_hakozaki", "http", "test", "tensorforce", "multiplayers",
   "static_agent_test"]

/-- A Python port value: `str` when taken from the descriptor, `int` when
computed as `agent_id + AGENT_BASE_PORT`. -/
inductive PortVal
  | str (s : String)
  | int (n : Nat)
  deriving DecidableEq

/-- The constructed agent instance, one constructor per `agents.*` class
used by the resolver, recording exactly the arguments the source passes.
Note the `docker` branch passes the whole `agent_control` (still containing
`:port`) as the image argument. -/
inductive AgentInstance
  | player (agent_control : String)
  | playerBlocking (agent_control : String)
  | simpleAgent
  | staticAgent
  | staticAgentTest
  | randomAgent
  | dockerAgent (image : String) (port : PortVal) (server : Option String)
      (env_vars : Option (List (String × String)))
  | dockerHakozakiAgent (image : String) (port : PortVal) (server : Option String)
      (env_vars : Option (List (String × String)))
  | multiPlayerAgent (port : PortVal) (server : Option String)
  | httpAgent (host : String) (port : String)
  | testAgent (cls : String)
  | tensorForceAgent (algorithm : String)
  deriving DecidableEq

inductive ResolveErr
  | malformedDescriptor
  | unknownAgentKind
  | keyError
  | nameError
  deriving DecidableEq

instance {ε α : Type} [DecidableEq ε] [DecidableEq α] : DecidableEq (Except ε α) :=
  fun x y =>
    match x, y with
    | Except.error a, Except.error b =>
      if h : a = b then isTrue (by rw [h]) else isFalse (fun hc => by cases hc; exact h rfl)
    | Except.error _, Except.ok _ => isFalse (fun hc => by cases hc)
    | Except.ok _, Except.error _ => isFalse (fun hc => by cases hc)
    | Except.ok a, Except.ok b =>
      if h : a = b then isTrue (by rw [h]) else isFalse (fun hc => by cases hc; exact h rfl)

def make_agent_from_string
    (useGameServers : Bool) (gameServers : Nat → Option (Option String))
    (agentBasePort : Nat) (ambientEval : String → Option String)
    (docker_env_dict : Option (List (String × String)))
    (agent_string : String) (agent_id : Nat) :
    Except ResolveErr (Option AgentInstance) :=
  match split2 ':' [':'] agent_string with
  | none => Except.error ResolveErr.malformedDescriptor
  | some (agent_type, agent_control) =>
    if agent_type ∈ recognizedKinds then
      if agent_type = "player" then
        Except.ok (some (AgentInstance.player agent_control))
      else if agent_type = "playerblock" then
        Except.ok (some (AgentInstance.playerBlocking agent_control))
      else if agent_type = "simple" then
        Except.ok (some AgentInstance.simpleAgent)
      else if agent_type = "static" then
        Except.ok (some AgentInstance.staticAgent)
      else if agent_type = "static_agent_test" then
        Except.ok (some AgentInstance.staticAgentTest)
      else if agent_type = "random" then
        Except.ok (some AgentInstance.randomAgent)
      else if agent_type = "docker" then
        -- `port = agent_id + constants.AGENT_BASE_PORT` in the source is
        -- immediately overwritten by the unpacking of the split below.
        match split2 ':' [] agent_control with
        | none => Except.error ResolveErr.malformedDescriptor
        | some (image, port) =>
          match (if useGameServers then gameServers agent_id
                 else some (some "http://localhost")) with
          | none => Except.error ResolveErr.keyError
          | some server =>
            Except.ok (some (AgentInstance.dockerAgent agent_control
              (PortVal.str port) server docker_env_dict))
      else if agent_type = "docker_hakozaki" then
        if containsChar agent_control ':' then
          match split2 ':' [] agent_control with
          | none => Except.error ResolveErr.malformedDescriptor
          | some (image, port) =>
            Except.ok (some (AgentInstance.dockerHakozakiAgent image
              (PortVal.str port) (some "http://localhost") docker_env_dict))
        else
          Except.ok (some (AgentInstance.dockerHakozakiAgent agent_control
            (PortVal.int (agent_id + agentBasePort)) (some "http://localhost")
            docker_env_dict))
      else if agent_type = "multiplayers" then
        match split2 ':' [] agent_control with
        | none => Except.error ResolveErr.malformedDescriptor
        | some (host, port) =>
          match (if useGameServers then gameServers agent_id
                 else some (some ("http://" ++ host))) with
          | none => Except.error ResolveErr.keyError
          | some server =>
            Except.ok (some (AgentInstance.multiPlayerAgent
              (PortVal.str port) server))
      else if agent_type = "http" then
        match split2 ':' [] agent_control with
        | none => Except.error ResolveErr.malformedDescriptor
        | some (host, port) =>
          Except.ok (some (AgentInstance.httpAgent host port))
      else if agent_type = "test" then
        match ambientEval agent_control with
        | none => Except.error ResolveErr.nameError
        | some cls => Except.ok (some (AgentInstance.testAgent cls))
      else if agent_type = "tensorforce" then
        Except.ok (some (AgentInstance.tensorForceAgent agent_control))
      else
        Except.ok none
    else
      Except.error ResolveErr.unknownAgentKind

/-! Section: The battle loop (`run_battle_comm.py`, `_run`, lines 65–143)

The episode is embedded as a function of
  * `sink : Endpoint → Bool` — the messaging server: `true` means the HTTP
    POST is delivered, `false` means `requests` raises `Timeout`, which
    `send_json` re-raises (`RunErr.deliveryTimeout`);
  * `stepFn : σ → σ × Bool` — `env.step` after action collection: next
    simulation state and the `done` flag (the action collection
    `env.act`/`notify_obs` calls are not telemetry and carry no claim, so
    they are folded into `stepFn`);
  * fuel bounding the `while not done` loop (`RunErr.fuelExhausted` when it
    runs out — the source loop simply has no such bound).

The episode produces a trace of events: `Ev.tick` each time `env.step`
executes and `Ev.send p` for each delivered telemetry POST, in program
order.  Rendering and JSON recording emit no telemetry and are omitted. -/

inductive Endpoint
  | envinfo
  | initial_obs
  | step
  | final_info
  deriving DecidableEq

inductive Ev
  | tick
  | send (e : Endpoint)
  deriving DecidableEq

inductive RunErr
  | deliveryTimeout
  | fuelExhausted
  deriving DecidableEq

/-- The mutable environment state visible to `_run`: the abstract simulation
state, the spec kwargs dict (`env.spec._kwargs`), and the observability flag
(`env._is_partially_observable`, named `limitedObs` here). -/
structure EnvSt (σ : Type) where
  sim : σ
  specKwargs : List (String × JVal)
  limitedObs : Bool
  deriving DecidableEq

/-- Lines 79–82: `envinfo = env.spec._kwargs` aliases the dict, and the loop
`for key, value in envinfo.items(): envinfo[key] = json.dumps(value, ...)`
replaces every value by its JSON-string encoding in place; the payload then
posted is that same (now mutated) dict. -/
def envinfoPhase {σ : Type} (e : EnvSt σ) : EnvSt σ × List (String × JVal) :=
  let kw := e.specKwargs.map (fun kv => (kv.1, JVal.str (jsonDumps kv.2)))
  ({ e with specKwargs := kw }, kw)

structure LoopOut (σ : Type) where
  trace : List Ev
  sim : σ
  result : Except RunErr Unit
  deriving DecidableEq

/-- Lines 93–113: the `while not done` loop.  Each iteration collects
actions, executes `env.step` (an `Ev.tick`), and posts the jsonified state
to `/step`; a timeout on that post aborts after the tick has already
committed. -/
def runLoop {σ : Type} (sink : Endpoint → Bool) (stepFn : σ → σ × Bool) :
    Nat → σ → LoopOut σ
  | 0, s => ⟨[], s, Except.error RunErr.fuelExhausted⟩
  | fuel + 1, s =>
    let p := stepFn s
    if sink Endpoint.step then
      if p.2 then ⟨[Ev.tick, Ev.send Endpoint.step], p.1, Except.ok ()⟩
      else
        let r := runLoop sink stepFn fuel p.1
        ⟨Ev.tick :: Ev.send Endpoint.step :: r.trace, r.sim, r.result⟩
    else ⟨[Ev.tick], p.1, Except.error RunErr.deliveryTimeout⟩

structure EpisodeOut (σ : Type) where
  trace : List Ev
  env : EnvSt σ
  result : Except RunErr Unit
  deriving DecidableEq

/-- Embedding of `_run` (lines 65–143): reset, the envinfo-kwargs mutation and `/envinfo`
post, the `/initial_obs` post, the loop, the `/final_info` post, and the
finalization `env._is_partially_observable = False` (line 119) — which the
source never sets back.  A timeout anywhere propagates (`send_json`
re-raises). -/
def runOnce {σ : Type} (sink : Endpoint → Bool) (stepFn : σ → σ × Bool)
    (fuel : Nat) (e : EnvSt σ) : EpisodeOut σ :=
  -- obs = env.reset(): no telemetry, not a tick
  let ep := envinfoPhase e
  if sink Endpoint.envinfo then
    -- env.notify_obs(obs, waiting=True): human channel, not telemetry
    if sink Endpoint.initial_obs then
      let lr := runLoop sink stepFn fuel ep.1.sim
      let e2 : EnvSt σ := { ep.1 with sim := lr.sim }
      match lr.result with
      | Except.error err =>
        ⟨Ev.send Endpoint.envinfo :: Ev.send Endpoint.initial_obs :: lr.trace,
         e2, Except.error err⟩
      | Except.ok _ =>
        if sink Endpoint.final_info then
          -- line 119: env._is_partially_observable = False (never restored)
          let e3 : EnvSt σ := { e2 with limitedObs := false }
          ⟨Ev.send Endpoint.envinfo :: Ev.send Endpoint.initial_obs ::
             (lr.trace ++ [Ev.send Endpoint.final_info]), e3, Except.ok ()⟩
        else
          ⟨Ev.send Endpoint.envinfo :: Ev.send Endpoint.initial_obs :: lr.trace,
           e2, Except.error RunErr.deliveryTimeout⟩
    else ⟨[Ev.send Endpoint.envinfo], ep.1, Except.error RunErr.deliveryTimeout⟩
  else ⟨[], ep.1, Except.error RunErr.deliveryTimeout⟩

/-- The telemetry sub-paths of a trace, in order. -/
def sendsOf (evs : List Ev) : List Endpoint :=
  evs.filterMap (fun ev => match ev with
    | Ev.send e => some e
    | Ev.tick => none)

/-- The number of executed simulation ticks in a trace. -/
def tickCount (evs : List Ev) : Nat :=
  evs.countP (fun ev => match ev with
    | Ev.tick => true
    | Ev.send _ => false)

/-- A sink that delivers every POST. -/
def allOk : Endpoint → Bool := fun _ => true

/-- A one-tick simulation and an initially partially-observable environment,
used as concrete inputs. -/
def stepOnce : Unit → Unit × Bool := fun _ => ((), true)

def envTrue : EnvSt Unit :=
  { sim := (), specKwargs := [("num_rigid", JVal.num 36)], limitedObs := true }

/-! Section: Finalizing the info dict (`_run`, lines 115–117 and 137–143)

```
info_ = deepcopy(info)
info_['result'] = str(info_['result'])
send_json(json.dumps(info_, ...), .../final_info)
...
utility.join_json_state(..., info);  return info
```

To express the aliasing question (does stringifying the result for the
telemetry payload also mutate the info object later used for recording and
returned?), Python dict objects are modelled by reference: a store is a
list of `InfoObj` and a reference is an index.  `deepcopy` appends a fresh
copy; the in-place `info_['result'] = str(...)` is a `List.set` at the
fresh reference. -/

/-- The value of `info['result']`: a `constants.Result` enum member
(abstracted by a numeric tag) or, after stringification, a string. -/
inductive RVal
  | resultObj (r : Nat)
  | strVal (s : String)
  deriving DecidableEq

/-- Model of `str` applied to an info result value (model of stringifying the
`Result` class). -/
def strOfRVal : RVal → String
  | RVal.resultObj r => "Result." ++ toString r
  | RVal.strVal s => s

structure InfoObj where
  result : RVal
  fields : List (String × JVal)
  deriving DecidableEq

/-- Lines 115–117: deep-copy the info dict, stringify the copy's result
field in place, and post the copy to `/final_info`.  Returns the updated
store, the reference holding the posted payload, and the reference the
remainder of `_run` keeps using (recording merge at line 141 and the
`return info` at line 143). -/
def finalizeInfo (store : List InfoObj) (infoRef : Nat) :
    List InfoObj × Nat × Nat :=
  match store.get? infoRef with
  | none => (store, infoRef, infoRef)
  | some info =>
    let copyRef := store.length
    let store1 := store ++ [info]
    let store2 := store1.set copyRef
      { info with result := RVal.strVal (strOfRVal info.result) }
    (store2, copyRef, infoRef)

/-! Section: The run wrapper (`run`, lines 35–167)

Seed resolution (lines 145–150):

```
if seed is None:
    seed = random.randint(0, np.iinfo(np.int32).max)
np.random.seed(seed); random.seed(seed); env.seed(seed)
```

`np.iinfo(np.int32).max = 2^31 - 1` and `random.randint` is inclusive at
both ends; the draw is modelled as an ambient entropy value reduced mod
`2^31` (a uniform entropy source therefore yields a uniform seed on the
inclusive range `[0, 2^31 - 1]`).  The three seeding calls are recorded as
run-level events in program order; `env.seed` fixes the simulation
dynamics, so the per-episode step function is a family indexed by the
resolved seed.  The episode loop (lines 152–164) runs `num_times` episodes
against the same environment object; an episode exception propagates out of
the loop.  `atexit.register(env.close)` (line 166) executes only after the
loop finishes, which `atexitRegistered` records. -/

def INT32_MAX : Nat := 2147483647

def resolveSeed : Option Nat → Nat → Nat
  | some s, _ => s
  | none, entropy => entropy % (INT32_MAX + 1)

inductive RunEv
  | seedNp (n : Nat)
  | seedPy (n : Nat)
  | seedEnv (n : Nat)
  | episodeRun (i : Nat)
  deriving DecidableEq

structure EpisodesOut (σ : Type) where
  traces : List (List Ev)
  env : EnvSt σ
  result : Except RunErr Unit
  deriving DecidableEq

/-- Lines 152–164: `for i in range(num_times): infos.append(_run(...))`.
The environment object is threaded from episode to episode; an episode
ending in an error propagates and stops the loop. -/
def runEpisodes {σ : Type} (sink : Endpoint → Bool) (stepFn : σ → σ × Bool)
    (fuel : Nat) : Nat → EnvSt σ → EpisodesOut σ
  | 0, e => ⟨[], e, Except.ok ()⟩
  | n + 1, e =>
    let r := runOnce sink stepFn fuel e
    match r.result with
    | Except.error err => ⟨[r.trace], r.env, Except.error err⟩
    | Except.ok _ =>
      let rest := runEpisodes sink stepFn fuel n r.env
      ⟨r.trace :: rest.traces, rest.env, rest.result⟩

structure RunOut (σ : Type) where
  seedUsed : Nat
  events : List RunEv
  traces : List (List Ev)
  finalEnv : EnvSt σ
  atexitRegistered : Bool
  result : Except RunErr Unit
  deriving DecidableEq

/-- Embedding of `run` (lines 145–167): resolve the seed, seed `np.random`, `random` and
the environment, run the episodes, and register `env.close` with the
process-exit hook only once the loop has returned. -/
def runBattles {σ : Type} (sink : Endpoint → Bool)
    (stepFam : Nat → σ → σ × Bool) (fuel numTimes : Nat) (e : EnvSt σ)
    (seedOpt : Option Nat) (entropy : Nat) : RunOut σ :=
  let s := resolveSeed seedOpt entropy
  let ep := runEpisodes sink (stepFam s) fuel numTimes e
  { seedUsed := s
  , events := RunEv.seedNp s :: RunEv.seedPy s :: RunEv.seedEnv s ::
      (List.range ep.traces.length).map RunEv.episodeRun
  , traces := ep.traces
  , finalEnv := ep.env
  , atexitRegistered := match ep.result with
      | Except.ok _ => true
      | Except.error _ => false
  , result := ep.result }

/-- One-tick dynamics for every seed, used as a concrete input. -/
def stepFamOnce : Nat → Unit → Unit × Bool := fun _ _ => ((), true)

/-- One pass of the line 80–81 value re-encoding, as a standalone map. -/
def encodeKw (kw : List (String × JVal)) : List (String × JVal) :=
  kw.map (fun kv => (kv.1, JVal.str (jsonDumps kv.2)))

/-- An ambient Python environment in which every expression resolves (every
symbol is importable/visible), used to exercise the `eval` branch. -/
def evalAll : String → Option String := fun s => some s

/-- A one-object store holding a final info dict whose result is still the
`Result` enum member. -/
def infoStore : List InfoObj :=
  [{ result := RVal.resultObj 0, fields := [("winners", JVal.str "[0]")] }]

/-! Section: Trace bookkeeping lemmas -/

@[simp] theorem sendsOf_nil : sendsOf [] = [] := rfl

@[simp] theorem sendsOf_send_cons (x : Endpoint) (l : List Ev) :
    sendsOf (Ev.send x :: l) = x :: sendsOf l := rfl

@[simp] theorem sendsOf_tick_cons (l : List Ev) :
    sendsOf (Ev.tick :: l) = sendsOf l := rfl

@[simp] theorem sendsOf_append (l1 l2 : List Ev) :
    sendsOf (l1 ++ l2) = sendsOf l1 ++ sendsOf l2 :=
  List.filterMap_append l1 l2 _

@[simp] theorem tickCount_nil : tickCount [] = 0 := rfl

@[simp] theorem tickCount_send_cons (x : Endpoint) (l : List Ev) :
    tickCount (Ev.send x :: l) = tickCount l := by
  simp [tickCount, List.countP_cons]

@[simp] theorem tickCount_tick_cons (l : List Ev) :
    tickCount (Ev.tick :: l) = tickCount l + 1 := by
  simp [tickCount, List.countP_cons]

@[simp] theorem tickCount_append (l1 l2 : List Ev) :
    tickCount (l1 ++ l2) = tickCount l1 + tickCount l2 := by
  simp [tickCount, List.countP_append]

/-- With a sink that delivers everything, the `RUNNING`-phase trace contains
exactly one `/step` send per tick. -/
theorem runLoop_sends_replicate {σ : Type} (stepFn : σ → σ × Bool) :
    ∀ (fuel : Nat) (s : σ),
      sendsOf (runLoop allOk stepFn fuel s).trace =
        List.replicate (tickCount (runLoop allOk stepFn fuel s).trace)
          Endpoint.step := by
  intro fuel
  induction fuel with
  | zero => intro s; simp [runLoop]
  | succ f ih =>
    intro s
    by_cases hdone : (stepFn s).2
    · simp [runLoop, allOk, hdone, List.replicate]
    · simp [runLoop, allOk, hdone, ih (stepFn s).1, List.replicate]

/-- C2.  For every episode that terminates (after `K := tickCount` ticks)
with every telemetry POST delivered, the sequence of telemetry sends, in
order, is exactly one `/envinfo`, one `/initial_obs`, `K` `/step` sends
(one per tick, in tick order), and one `/final_info`; nothing is sent out
of this order. -/
theorem c2_telemetry_order {σ : Type} (stepFn : σ → σ × Bool) (fuel : Nat)
    (e : EnvSt σ)
    (h : (runOnce allOk stepFn fuel e).result = Except.ok ()) :
    sendsOf (runOnce allOk stepFn fuel e).trace =
      Endpoint.envinfo :: Endpoint.initial_obs ::
        (List.replicate (tickCount (runOnce allOk stepFn fuel e).trace)
           Endpoint.step ++ [Endpoint.final_info]) := by
  by_cases hl : (runLoop allOk stepFn fuel (envinfoPhase e).1.sim).result =
      Except.ok ()
  · have hrun : runOnce allOk stepFn fuel e =
        ⟨Ev.send Endpoint.envinfo :: Ev.send Endpoint.initial_obs ::
           ((runLoop allOk stepFn fuel (envinfoPhase e).1.sim).trace ++
             [Ev.send Endpoint.final_info]),
         { (envinfoPhase e).1 with
             sim := (runLoop allOk stepFn fuel (envinfoPhase e).1.sim).sim,
             limitedObs := false },
         Except.ok ()⟩ := by
      simp only [runOnce, allOk, if_true]
      rw [hl]
    rw [hrun]
    simp [runLoop_sends_replicate]
  · exfalso
    apply hl
    by_cases hl2 : (runLoop allOk stepFn fuel (envinfoPhase e).1.sim).result =
        Except.error RunErr.deliveryTimeout
    · have : (runOnce allOk stepFn fuel e).result =
          Except.error RunErr.deliveryTimeout := by
        simp only [runOnce, allOk, if_true]
        rw [hl2]
      rw [h] at this
      exact absurd this (by simp)
    · by_cases hl3 : (runLoop allOk stepFn fuel (envinfoPhase e).1.sim).result =
          Except.error RunErr.fuelExhausted
      · have : (runOnce allOk stepFn fuel e).result =
            Except.error RunErr.fuelExhausted := by
          simp only [runOnce, allOk, if_true]
          rw [hl3]
        rw [h] at this
        exact absurd this (by simp)
      · cases hr : (runLoop allOk stepFn fuel (envinfoPhase e).1.sim).result with
        | ok u => cases u; rfl
        | error err =>
          cases err with
          | deliveryTimeout => exact absurd hr hl2
          | fuelExhausted => exact absurd hr hl3

/-- Witness for C2 at a one-tick episode. -/
theorem c2_telemetry_order_witness :
    sendsOf (runOnce allOk stepOnce 1 envTrue).trace =
      Endpoint.envinfo :: Endpoint.initial_obs ::
        (List.replicate (tickCount (runOnce allOk stepOnce 1 envTrue).trace)
           Endpoint.step ++ [Endpoint.final_info]) :=
  c2_telemetry_order stepOnce 1 envTrue (by decide)

/-- C4.  If the observer endpoint times out on the `/envinfo` or
`/initial_obs` handshake POST, the episode fails with the delivery-timeout
error propagated to the caller and no simulation tick (`env.step`) has
executed. -/
theorem c4_init_timeout {σ : Type} (sink : Endpoint → Bool)
    (stepFn : σ → σ × Bool) (fuel : Nat) (e : EnvSt σ)
    (h : sink Endpoint.envinfo = false ∨ sink Endpoint.initial_obs = false) :
    (runOnce sink stepFn fuel e).result = Except.error RunErr.deliveryTimeout
    ∧ Ev.tick ∉ (runOnce sink stepFn fuel e).trace := by
  by_cases hev : sink Endpoint.envinfo
  · have hio : sink Endpoint.initial_obs = false := by
      cases h with
      | inl h1 => rw [h1] at hev; exact absurd hev (by simp)
      | inr h2 => exact h2
    constructor
    · simp [runOnce, hev, hio]
    · simp [runOnce, hev, hio]
  · constructor
    · simp [runOnce, hev]
    · simp [runOnce, hev]

/-- Witness for C4: a sink that never answers. -/
theorem c4_init_timeout_witness :
    (runOnce (fun _ => false) stepOnce 3 envTrue).result =
        Except.error RunErr.deliveryTimeout
    ∧ Ev.tick ∉ (runOnce (fun _ => false) stepOnce 3 envTrue).trace :=
  c4_init_timeout (fun _ => false) stepOnce 3 envTrue (Or.inl rfl)

/-- C6.  Counter to the claim that finalization restores the observability
mode: at a concrete episode whose environment starts partially observable
(nothing in the loop touches the flag, so its value right before
finalization is still `true`), the episode completes normally and leaves
`env._is_partially_observable` (`limitedObs`) forced to `false` — line 119
sets it and no later line restores it. -/
theorem c6_observability_not_restored :
    envTrue.limitedObs = true
    ∧ (runOnce allOk stepOnce 1 envTrue).result = Except.ok ()
    ∧ (runOnce allOk stepOnce 1 envTrue).env.limitedObs = false := by decide

/-- Whatever the sink and dynamics do, an episode leaves the spec kwargs
dict holding the JSON-string encodings of its previous values (the line
80–81 loop mutates the aliased dict, and no later line of `_run` touches
it). -/
theorem runOnce_env_specKwargs {σ : Type} (sink : Endpoint → Bool)
    (stepFn : σ → σ × Bool) (fuel : Nat) (e : EnvSt σ) :
    (runOnce sink stepFn fuel e).env.specKwargs = encodeKw e.specKwargs := by
  simp only [runOnce]
  repeat' split
  all_goals rfl

/-- C10.  Sending `/envinfo` mutates `env.spec._kwargs` in place: after an
episode every value is the JSON-string encoding of the original, and a
second episode on the same environment builds its `/envinfo` payload by
re-encoding those strings, i.e. its payload is the double JSON encoding of
the original values. -/
theorem c10_kwargs_double_encoding {σ : Type} (sink : Endpoint → Bool)
    (stepFn : σ → σ × Bool) (fuel : Nat) (e : EnvSt σ) :
    (runOnce sink stepFn fuel e).env.specKwargs = encodeKw e.specKwargs
    ∧ (envinfoPhase (runOnce sink stepFn fuel e).env).2 =
        encodeKw (encodeKw e.specKwargs)
    ∧ encodeKw (encodeKw e.specKwargs) =
        e.specKwargs.map (fun kv =>
          (kv.1, JVal.str (jsonDumps (JVal.str (jsonDumps kv.2))))) := by
  refine ⟨runOnce_env_specKwargs sink stepFn fuel e, ?_, ?_⟩
  · show encodeKw (runOnce sink stepFn fuel e).env.specKwargs =
      encodeKw (encodeKw e.specKwargs)
    rw [runOnce_env_specKwargs]
  · simp [encodeKw, List.map_map]

/-- Setting the freshly appended cell of a store rewrites just that cell. -/
theorem set_append_length {α : Type} (l : List α) (a b : α) :
    (l ++ [a]).set l.length b = l ++ [b] := by
  induction l with
  | nil => rfl
  | cons x xs ih => simp [List.set, ih]

/-- C8.  Finalization stringifies the result field of a deep copy only: the
original info object is unchanged in the store (its result is still the
structured value), the posted copy holds the stringified result, and the
reference kept for recording and for the episode's return value is the
original one. -/
theorem c8_defensive_copy (store : List InfoObj) (infoRef : Nat)
    (info : InfoObj) (h : store.get? infoRef = some info) :
    (finalizeInfo store infoRef).1.get? infoRef = some info
    ∧ (finalizeInfo store infoRef).1.get? (finalizeInfo store infoRef).2.1 =
        some { info with result := RVal.strVal (strOfRVal info.result) }
    ∧ (finalizeInfo store infoRef).2.2 = infoRef := by
  have hlt : infoRef < store.length := by
    by_contra hge
    rw [List.get?_eq_none.mpr (Nat.le_of_not_lt hge)] at h
    exact absurd h (by simp)
  have hfin : finalizeInfo store infoRef =
      (store ++ [{ info with result := RVal.strVal (strOfRVal info.result) }],
       store.length, infoRef) := by
    unfold finalizeInfo
    rw [h]
    simp [set_append_length]
  rw [hfin]
  refine ⟨?_, ?_, rfl⟩
  · rw [List.get?_append hlt]; exact h
  · exact List.get?_concat_length _ _

/-- Witness for C8 at a concrete one-entry store. -/
theorem c8_defensive_copy_witness :
    (finalizeInfo infoStore 0).1.get? 0 =
        some { result := RVal.resultObj 0,
               fields := [("winners", JVal.str "[0]")] }
    ∧ (finalizeInfo infoStore 0).1.get? (finalizeInfo infoStore 0).2.1 =
        some { result := RVal.strVal (strOfRVal (RVal.resultObj 0)),
               fields := [("winners", JVal.str "[0]")] }
    ∧ (finalizeInfo infoStore 0).2.2 = 0 :=
  c8_defensive_copy infoStore 0
    { result := RVal.resultObj 0, fields := [("winners", JVal.str "[0]")] }
    (by decide)

/-- C1, counterexample.  `"bogus::x::y"` has kind token `"bogus"` (the
substring before `"::"`), which is not in the recognized set, yet
resolution fails with the malformed-descriptor error (`ValueError` from the
three-way split), not with the unknown-kind error: the claim does not hold
for every descriptor string with an unrecognized kind token. -/
theorem c1_counterexample :
    (pySplit ':' [':'] "bogus::x::y").head? = some "bogus"
    ∧ "bogus" ∉ recognizedKinds
    ∧ make_agent_from_string false (fun _ => none) 4000 (fun _ => none) none
        "bogus::x::y" 0 = Except.error ResolveErr.malformedDescriptor
    ∧ (Except.error ResolveErr.malformedDescriptor :
         Except ResolveErr (Option AgentInstance)) ≠
        Except.error ResolveErr.unknownAgentKind := by decide

/-- C1, amended.  For every descriptor string that splits at `"::"` into
exactly two fields with an unrecognized kind token, resolution fails with
the unknown-kind error and constructs no agent (the error return carries no
instance and precedes every constructor and transport side effect);
descriptor strings with any other number of `"::"`-separated fields fail
earlier with the malformed-descriptor error, likewise constructing
nothing. -/
theorem c1_unknown_kind_amended (useGS : Bool)
    (gs : Nat → Option (Option String)) (base : Nat)
    (ev : String → Option String) (denv : Option (List (String × String)))
    (s kind spec : String) (agent_id : Nat)
    (hsplit : pySplit ':' [':'] s = [kind, spec])
    (hk : kind ∉ recognizedKinds) :
    make_agent_from_string useGS gs base ev denv s agent_id =
      Except.error ResolveErr.unknownAgentKind := by
  unfold make_agent_from_string split2
  rw [hsplit]
  simp [hk]

/-- Witness for amended C1. -/
theorem c1_unknown_kind_amended_witness :
    make_agent_from_string false (fun _ => none) 4000 (fun _ => none) none
      "bogus::x" 7 = Except.error ResolveErr.unknownAgentKind :=
  c1_unknown_kind_amended false (fun _ => none) 4000 (fun _ => none) none
    "bogus::x" "bogus" "x" 7 (by decide) (by decide)

/-- C5, counterexample.  For the container-remote (`docker`) kind a spec
without an explicit port (`"docker::myimage"`, no colon) does not resolve
with a defaulted port: the dead default assignment is overwritten by the
unpacking of `agent_control.split(":")`, which raises (`ValueError`), so
resolution fails and no handle is constructed. -/
theorem c5_counterexample :
    containsChar "myimage" ':' = false
    ∧ make_agent_from_string false (fun _ => none) 4000 (fun _ => none) none
        "docker::myimage" 0 = Except.error ResolveErr.malformedDescriptor := by
  decide

/-- C5, amended.  Only the container-remote-variant (`docker_hakozaki`)
kind defaults the port to `agent_id + AGENT_BASE_PORT` when the spec
contains no explicit port, and then constructs the handle; the
container-remote (`docker`) and multi-host-remote (`multiplayers`) kinds
require an explicit `":port"` and fail with the malformed-descriptor error
when the spec contains no colon. -/
theorem c5_port_default_amended :
    (∀ (useGS : Bool) (gs : Nat → Option (Option String)) (base : Nat)
       (ev : String → Option String) (denv : Option (List (String × String)))
       (s image : String) (agent_id : Nat),
       pySplit ':' [':'] s = ["docker_hakozaki", image] →
       containsChar image ':' = false →
       make_agent_from_string useGS gs base ev denv s agent_id =
         Except.ok (some (AgentInstance.dockerHakozakiAgent image
           (PortVal.int (agent_id + base)) (some "http://localhost") denv)))
    ∧ (∀ (useGS : Bool) (gs : Nat → Option (Option String)) (base : Nat)
         (ev : String → Option String)
         (denv : Option (List (String × String))) (s spec : String)
         (agent_id : Nat),
         pySplit ':' [':'] s = ["docker", spec] →
         pySplit ':' [] spec = [spec] →
         make_agent_from_string useGS gs base ev denv s agent_id =
           Except.error ResolveErr.malformedDescriptor)
    ∧ (∀ (useGS : Bool) (gs : Nat → Option (Option String)) (base : Nat)
         (ev : String → Option String)
         (denv : Option (List (String × String))) (s spec : String)
         (agent_id : Nat),
         pySplit ':' [':'] s = ["multiplayers", spec] →
         pySplit ':' [] spec = [spec] →
         make_agent_from_string useGS gs base ev denv s agent_id =
           Except.error ResolveErr.malformedDescriptor) := by
  refine ⟨?_, ?_, ?_⟩
  · intro useGS gs base ev denv s image agent_id hsplit hc
    unfold make_agent_from_string split2
    rw [hsplit]
    simp [recognizedKinds, hc]
  · intro useGS gs base ev denv s spec agent_id hsplit hnp
    unfold make_agent_from_string split2
    rw [hsplit]
    simp [recognizedKinds, hnp]
  · intro useGS gs base ev denv s spec agent_id hsplit hnp
    unfold make_agent_from_string split2
    rw [hsplit]
    simp [recognizedKinds, hnp]

/-- Witness for amended C5. -/
theorem c5_port_default_amended_witness :
    make_agent_from_string false (fun _ => none) 4000 (fun _ => none) none
      "docker_hakozaki::img" 2 =
      Except.ok (some (AgentInstance.dockerHakozakiAgent "img"
        (PortVal.int (2 + 4000)) (some "http://localhost") none))
    ∧ make_agent_from_string false (fun _ => none) 4000 (fun _ => none) none
        "docker::img" 0 = Except.error ResolveErr.malformedDescriptor
    ∧ make_agent_from_string false (fun _ => none) 4000 (fun _ => none) none
        "multiplayers::host" 1 = Except.error ResolveErr.malformedDescriptor :=
  ⟨c5_port_default_amended.1 false (fun _ => none) 4000 (fun _ => none) none
     "docker_hakozaki::img" "img" 2 (by decide) (by decide),
   c5_port_default_amended.2.1 false (fun _ => none) 4000 (fun _ => none) none
     "docker::img" "img" 0 (by decide) (by decide),
   c5_port_default_amended.2.2 false (fun _ => none) 4000 (fun _ => none) none
     "multiplayers::host" "host" 1 (by decide) (by decide)⟩

/-- C7.  The `test` kind is resolved by handing the raw spec string to the
ambient evaluation environment (`eval(agent_control)()`), not to a fixed
registry: under an ambient environment in which every symbol resolves, an
arbitrary attacker-chosen name outside any registry constructs an agent,
while the same descriptor fails under an empty ambient environment — the
outcome is a function of the ambient environment, which is exactly the
behavior the claim rules out. -/
theorem c7_ambient_eval :
    make_agent_from_string false (fun _ => none) 4000 evalAll none
      "test::attacker.EvilAgent" 0 =
      Except.ok (some (AgentInstance.testAgent "attacker.EvilAgent"))
    ∧ make_agent_from_string false (fun _ => none) 4000 (fun _ => none) none
        "test::attacker.EvilAgent" 0 = Except.error ResolveErr.nameError := by
  decide

/-- C3.  Seed resolution and application: when no seed is supplied the
drawn seed lies in the inclusive range `[0, 2^31 - 1]` and every value of
that range is drawn for some state of the ambient entropy source (the model
of `random.randint(0, np.iinfo(np.int32).max)`, whose uniformity the model
carries by reducing a uniform entropy word mod `2^31`); the resolved seed
is applied to the numpy RNG, the stdlib RNG and the simulation RNG, in that
order, before any episode event; and with a fixed supplied seed the whole
run output — seeding events, per-episode telemetry traces, final
environment, results — is independent of the ambient entropy, so two runs
of the same configuration with the same seed coincide. -/
theorem c3_seed_resolution :
    (∀ entropy, resolveSeed none entropy ≤ INT32_MAX)
    ∧ (∀ s, s ≤ INT32_MAX → ∃ entropy, resolveSeed none entropy = s)
    ∧ (∀ (γ : Type) (sink : Endpoint → Bool) (stepFam : Nat → γ → γ × Bool)
         (fuel n : Nat) (e : EnvSt γ) (seedOpt : Option Nat) (entropy : Nat),
         (runBattles sink stepFam fuel n e seedOpt entropy).events =
           RunEv.seedNp (runBattles sink stepFam fuel n e seedOpt entropy).seedUsed ::
           RunEv.seedPy (runBattles sink stepFam fuel n e seedOpt entropy).seedUsed ::
           RunEv.seedEnv (runBattles sink stepFam fuel n e seedOpt entropy).seedUsed ::
           (List.range
             (runBattles sink stepFam fuel n e seedOpt entropy).traces.length).map
             RunEv.episodeRun)
    ∧ (∀ (γ : Type) (sink : Endpoint → Bool) (stepFam : Nat → γ → γ × Bool)
         (fuel n : Nat) (e : EnvSt γ) (S ent1 ent2 : Nat),
         runBattles sink stepFam fuel n e (some S) ent1 =
           runBattles sink stepFam fuel n e (some S) ent2) := by
  refine ⟨?_, ?_, ?_, ?_⟩
  · intro entropy
    simp only [resolveSeed, INT32_MAX]
    omega
  · intro s hs
    refine ⟨s, ?_⟩
    simp only [resolveSeed, INT32_MAX] at hs ⊢
    omega
  · intro γ sink stepFam fuel n e seedOpt entropy
    rfl
  · intro γ sink stepFam fuel n e S ent1 ent2
    rfl

/-- Witness for C3: the top of the range is drawn for some entropy state,
and a concrete two-episode run with seed 42 is entropy-independent. -/
theorem c3_seed_resolution_witness :
    (∃ entropy, resolveSeed none entropy = INT32_MAX)
    ∧ runBattles allOk stepFamOnce 1 2 envTrue (some 42) 0 =
        runBattles allOk stepFamOnce 1 2 envTrue (some 42) 99 :=
  ⟨c3_seed_resolution.2.1 INT32_MAX (by decide),
   c3_seed_resolution.2.2.2 Unit allOk stepFamOnce 1 2 envTrue 42 0 99⟩

/-- C9, counterexample.  A run whose single episode aborts with a delivery
timeout (observer down during the INIT handshake) terminates abnormally and
never reaches line 166: no process-exit cleanup of the environment is
registered, so registration does depend on all episodes completing
normally. -/
theorem c9_counterexample :
    (runBattles (fun _ => false) stepFamOnce 1 1 envTrue none 0).result =
        Except.error RunErr.deliveryTimeout
    ∧ (runBattles (fun _ => false) stepFamOnce 1 1 envTrue none 0).atexitRegistered =
        false := by decide

/-- With dynamics that finish every episode in one tick and a sink that
delivers everything, a single episode completes normally. -/
theorem runOnce_ok_of_done {σ : Type} (stepFn : σ → σ × Bool)
    (h : ∀ x, (stepFn x).2 = true) (f : Nat) (e : EnvSt σ) :
    (runOnce allOk stepFn (f + 1) e).result = Except.ok () := by
  have hl : runLoop allOk stepFn (f + 1) (envinfoPhase e).1.sim =
      ⟨[Ev.tick, Ev.send Endpoint.step],
       (stepFn (envinfoPhase e).1.sim).1, Except.ok ()⟩ := by
    simp [runLoop, allOk, h]
  simp [runOnce, allOk, hl]

/-- Under the same conditions the whole episode loop completes normally. -/
theorem runEpisodes_ok_of_done {σ : Type} (stepFn : σ → σ × Bool)
    (h : ∀ x, (stepFn x).2 = true) (f : Nat) :
    ∀ (n : Nat) (e : EnvSt σ),
      (runEpisodes allOk stepFn (f + 1) n e).result = Except.ok () := by
  intro n
  induction n with
  | zero => intro e; rfl
  | succ k ih =>
    intro e
    have hr := runOnce_ok_of_done stepFn h f e
    simp [runEpisodes, hr, ih]

/-- C9, amended.  The process-exit cleanup (`atexit.register(env.close)`,
line 166) is registered exactly when the episode loop returns normally: a
run whose episodes all complete registers it, and a run aborted by an
episode error propagates before registration, so no cleanup is registered
on that path. -/
theorem c9_registration_amended :
    (∀ (γ : Type) (sink : Endpoint → Bool) (stepFam : Nat → γ → γ × Bool)
       (fuel n : Nat) (e : EnvSt γ) (seedOpt : Option Nat) (entropy : Nat),
       (runBattles sink stepFam fuel n e seedOpt entropy).atexitRegistered = true
         ↔ (runBattles sink stepFam fuel n e seedOpt entropy).result =
             Except.ok ())
    ∧ (∀ (γ : Type) (stepFam : Nat → γ → γ × Bool) (fuel n : Nat)
         (e : EnvSt γ) (seedOpt : Option Nat) (entropy : Nat),
         (∀ s x, (stepFam s x).2 = true) → 1 ≤ fuel →
         (runBattles allOk stepFam fuel n e seedOpt entropy).atexitRegistered =
           true) := by
  constructor
  · intro γ sink stepFam fuel n e seedOpt entropy
    have hreg : (runBattles sink stepFam fuel n e seedOpt entropy).atexitRegistered =
        (match (runEpisodes sink (stepFam (resolveSeed seedOpt entropy)) fuel n e).result with
         | Except.ok _ => true
         | Except.error _ => false) := rfl
    have hres : (runBattles sink stepFam fuel n e seedOpt entropy).result =
        (runEpisodes sink (stepFam (resolveSeed seedOpt entropy)) fuel n e).result :=
      rfl
    rw [hreg, hres]
    cases (runEpisodes sink (stepFam (resolveSeed seedOpt entropy)) fuel n e).result with
    | ok u => cases u; simp
    | error err => simp
  · intro γ stepFam fuel n e seedOpt entropy hdone hfuel
    cases fuel with
    | zero => exact absurd hfuel (by simp)
    | succ f =>
      have hok := runEpisodes_ok_of_done (stepFam (resolveSeed seedOpt entropy))
        (hdone _) f n e
      have hreg : (runBattles allOk stepFam (f + 1) n e seedOpt entropy).atexitRegistered =
          (match (runEpisodes allOk (stepFam (resolveSeed seedOpt entropy)) (f + 1) n e).result with
           | Except.ok _ => true
           | Except.error _ => false) := rfl
      rw [hreg, hok]

/-- Witness for amended C9 at a concrete two-episode run. -/
theorem c9_registration_amended_witness :
    ((runBattles allOk stepFamOnce 1 2 envTrue none 5).atexitRegistered = true
      ↔ (runBattles allOk stepFamOnce 1 2 envTrue none 5).result =
          Except.ok ())
    ∧ (runBattles allOk stepFamOnce 1 2 envTrue none 5).atexitRegistered =
        true :=
  ⟨c9_registration_amended.1 Unit allOk stepFamOnce 1 2 envTrue none 5,
   c9_registration_amended.2 Unit stepFamOnce 1 2 envTrue none 5
     (fun _ _ => rfl) (by decide)⟩

end Pommerman
